import Mathlib

/-!
Shallow embedding of `custom_components/open_epaper_link/image.py`:
the image platform of the OpenEPaperLink Home Assistant integration.

The hub, the dispatcher and the filesystem are external collaborators of
this file; they are modelled as explicit state passed to the functions
that, in the Python source, reach them through `self._hub`, `self.hass`
and `os` / `open`.  Bytes are modelled as `List Nat`, string formatting
as `String` concatenation.
-/

namespace OpenEPaperLink

/-- Modelled from the spec: the integration domain constant `DOMAIN` lives in
`const.py`, which is not part of the source excerpt; the spec only uses it as
an opaque namespace string for topics and keys. -/
def DOMAIN : String := "open_epaper_link"

/-- Modelled from the spec: the constant `SIGNAL_TAG_IMAGE_UPDATE` lives in
`const.py`, which is not part of the source excerpt; the spec treats it as the
opaque topic stem of the per-tag image-updated notification. -/
def SIGNAL_TAG_IMAGE_UPDATE : String := "open_epaper_link_tag_image_update"

/-- Modelled from the spec: `get_hw_string` lives in `tag_types.py`, which is
not part of the source excerpt; the spec says only that the device model is
derived from a hardware-type code via a lookup helper, so it is modelled as an
arbitrary deterministic lookup. -/
def get_hw_string (hw_type : Int) : String := "hw_" ++ toString hw_type

/-- Modelled from the spec: `get_image_path` lives in `util.py`, which is not
part of the source excerpt; the spec says only that the image file path is
deterministically derived from the namespaced key, so it is modelled as an
arbitrary deterministic derivation from that key. -/
def get_image_path (key : String) : String := "/media/" ++ key ++ ".jpg"

/-- A tag record as returned by `hub.get_tag_data`: a dictionary whose keys
`hw_type` and `tag_name` may each be absent (`dict.get` with a default is used
on both in `__init__`). -/
structure TagData where
  hw_type : Option Int
  tag_name : Option String
  deriving DecidableEq

/-- The external hub collaborator: connectivity flag, known tag identifiers,
blacklist, and per-tag records. -/
structure Hub where
  online : Bool
  tags : List String
  blacklist : List String
  tagData : String → TagData

/-- `hub.get_blacklisted_tags()`. -/
def Hub.get_blacklisted_tags (hub : Hub) : List String := hub.blacklist

/-- `hub.get_tag_data(tag_mac)`. -/
def Hub.get_tag_data (hub : Hub) (tag_mac : String) : TagData := hub.tagData tag_mac

/-- The `DeviceInfo` record built in `__init__`. -/
structure DeviceInfo where
  identifiers : List (String × String)
  name : String
  manufacturer : String
  model : String
  via_device : String × String
  deriving DecidableEq

/-- The mutable per-entity state of `OpenEPaperLinkImageEntity`: the tag
identifier, the unique id, the device metadata fixed at construction, and the
lazily resolved image path (`None` until the first `async_image` call). -/
structure OpenEPaperLinkImageEntity where
  tag_mac : String
  unique_id : String
  device_info : DeviceInfo
  image_path : Option String
  deriving DecidableEq

/-- `OpenEPaperLinkImageEntity.__init__(hub, tag_mac)`. -/
def mkImageEntity (hub : Hub) (tag_mac : String) : OpenEPaperLinkImageEntity :=
  let tag_data := hub.get_tag_data tag_mac
  let hw_type := tag_data.hw_type.getD 0
  { tag_mac := tag_mac
    unique_id := tag_mac ++ "_content"
    device_info :=
      { identifiers := [(DOMAIN, tag_mac)]
        name := tag_data.tag_name.getD tag_mac
        manufacturer := "OpenEPaperLink"
        model := get_hw_string hw_type
        via_device := (DOMAIN, "ap") }
    image_path := none }

/-- The `available` property: recomputed from the hub's current state on
every query; the entity contributes only its tag identifier. -/
def OpenEPaperLinkImageEntity.available
    (e : OpenEPaperLinkImageEntity) (hub : Hub) : Bool :=
  hub.online && hub.tags.contains e.tag_mac
    && !(hub.get_blacklisted_tags.contains e.tag_mac)

/-- The external filesystem as seen by `async_image`: `fs p` is the contents
of the file at path `p` when one exists (`os.path.exists`), and `readFails p`
says whether opening or reading `p` raises `OSError` on this call. -/
structure Env where
  fs : String → Option (List Nat)
  readFails : String → Bool

/-- The image path used by `async_image`: the cached one when present,
otherwise freshly derived from the namespaced key `DOMAIN + "." + tag_mac`. -/
def resolvedImagePath (e : OpenEPaperLinkImageEntity) : String :=
  match e.image_path with
  | some p => p
  | none => get_image_path (DOMAIN ++ "." ++ e.tag_mac)

/-- Outcome of one `async_image` call: the entity state after the call, the
returned value (`none` models Python `None`), and the messages logged. -/
structure ImageResult where
  entity : OpenEPaperLinkImageEntity
  image : Option (List Nat)
  log : List String
  deriving DecidableEq

/-- `async_image`: resolve and cache the path on first use, return `None` if
no file exists, otherwise read the full file; an `OSError` during the read is
logged and turned into `None`.  The function is total: no error escapes. -/
def async_image (env : Env) (e : OpenEPaperLinkImageEntity) : ImageResult :=
  let path := resolvedImagePath e
  let e' := { e with image_path := some path }
  if (env.fs path).isSome then
    if env.readFails path then
      { entity := e', image := none
        log := ["Could not read image file for " ++ e.tag_mac] }
    else
      { entity := e', image := env.fs path, log := [] }
  else
    { entity := e', image := none, log := [] }

/-- The state local to `async_setup_entry`: the `added_entities` tracking set
and the entities handed to `async_add_entities` so far, in order. -/
structure SetupState where
  added : List String
  entities : List OpenEPaperLinkImageEntity
  deriving DecidableEq

/-- The `async_add_image_entity` closure: skip identifiers already tracked,
skip `"ap"` and blacklisted identifiers, otherwise create the entity,
register it and record the identifier. -/
def async_add_image_entity (hub : Hub) (s : SetupState) (tag_mac : String) :
    SetupState :=
  if tag_mac ∈ s.added then s
  else if tag_mac = "ap" ∨ tag_mac ∈ hub.get_blacklisted_tags then s
  else
    { added := s.added ++ [tag_mac]
      entities := s.entities ++ [mkImageEntity hub tag_mac] }

/-- The startup enumeration of `async_setup_entry`: run the add-entity path
over every tag known to the hub, starting from an empty tracking set. -/
def async_setup_entry (hub : Hub) : SetupState :=
  hub.tags.foldl (async_add_image_entity hub) { added := [], entities := [] }

/-- A sequence of later tag-discovered notifications, each delivered with the
hub in some (possibly changed) state. -/
def runEvents (s : SetupState) (evs : List (Hub × String)) : SetupState :=
  evs.foldl (fun s ev => async_add_image_entity ev.1 s ev.2) s

/-- No two registered entities share a tag identifier. -/
def tagsUnique (s : SetupState) : Prop :=
  (s.entities.map OpenEPaperLinkImageEntity.tag_mac).Nodup

instance (s : SetupState) : Decidable (tagsUnique s) := by
  unfold tagsUnique
  infer_instance

/-- Internal invariant of the setup state: entity identifiers are pairwise
distinct and every registered entity's identifier is tracked. -/
def SetupInvariant (s : SetupState) : Prop :=
  tagsUnique s ∧ ∀ e ∈ s.entities, e.tag_mac ∈ s.added

/-- The two callbacks an entity hands to the dispatcher. -/
inductive HassCallback
  | write_ha_state
  | handle_blacklist_update
  deriving DecidableEq

/-- Both callbacks end in `async_write_ha_state`:
`_handle_blacklist_update` just calls it. -/
def callbackWritesState : HassCallback → Bool
  | .write_ha_state => true
  | .handle_blacklist_update => true

/-- One live dispatcher connection. -/
structure Connection where
  id : Nat
  topic : String
  cb : HassCallback
  deriving DecidableEq

/-- The external dispatch bus: live connections plus a fresh-id counter. -/
structure Dispatcher where
  conns : List Connection
  nextId : Nat
  deriving DecidableEq

/-- `async_dispatcher_connect`: register a callback under a topic and return
the handle that removes it again. -/
def dispatcher_connect (d : Dispatcher) (topic : String) (cb : HassCallback) :
    Nat × Dispatcher :=
  (d.nextId,
    { conns := d.conns ++ [{ id := d.nextId, topic := topic, cb := cb }]
      nextId := d.nextId + 1 })

/-- Invoking one unsubscribe handle. -/
def dispatcher_disconnect (d : Dispatcher) (i : Nat) : Dispatcher :=
  { d with conns := d.conns.filter (fun c => c.id ≠ i) }

/-- `async_added_to_hass`: subscribe to the three topics, keeping the
unsubscribe handles via `async_on_remove`. -/
def async_added_to_hass (tag_mac : String) (d : Dispatcher) :
    List Nat × Dispatcher :=
  let r1 := dispatcher_connect d (SIGNAL_TAG_IMAGE_UPDATE ++ "_" ++ tag_mac)
    .write_ha_state
  let r2 := dispatcher_connect r1.2 (DOMAIN ++ "_connection_status")
    .write_ha_state
  let r3 := dispatcher_connect r2.2 (DOMAIN ++ "_blacklist_update")
    .handle_blacklist_update
  ([r1.1, r2.1, r3.1], r3.2)

/-- Entity detachment: the host invokes every unsubscribe handle stored via
`async_on_remove`. -/
def detach (handles : List Nat) (d : Dispatcher) : Dispatcher :=
  handles.foldl dispatcher_disconnect d

/-- Sending a notification on a topic: the number of state writes it causes,
one per matching connection whose callback writes state. -/
def dispatcher_send (d : Dispatcher) (topic : String) : Nat :=
  (d.conns.filter (fun c => c.topic = topic && callbackWritesState c.cb)).length

/-- The three topics an entity subscribes to. -/
def subscribedTopics (tag_mac : String) : List String :=
  [SIGNAL_TAG_IMAGE_UPDATE ++ "_" ++ tag_mac,
   DOMAIN ++ "_connection_status",
   DOMAIN ++ "_blacklist_update"]

/-- Well-formedness of the dispatcher: every live connection was handed out
before the current fresh id. -/
def DispatcherWF (d : Dispatcher) : Prop :=
  ∀ c ∈ d.conns, c.id < d.nextId

instance (d : Dispatcher) : Decidable (DispatcherWF d) := by
  unfold DispatcherWF
  infer_instance

end OpenEPaperLink

namespace OpenEPaperLink

lemma mkImageEntity_tag_mac (hub : Hub) (mac : String) :
    (mkImageEntity hub mac).tag_mac = mac := rfl

lemma async_image_entity_eq (env : Env) (e : OpenEPaperLinkImageEntity) :
    (async_image env e).entity = { e with image_path := some (resolvedImagePath e) } := by
  unfold async_image
  dsimp only
  split
  · split <;> rfl
  · rfl

lemma async_add_invariant (hub : Hub) (s : SetupState) (mac : String)
    (h : SetupInvariant s) : SetupInvariant (async_add_image_entity hub s mac) := by
  unfold async_add_image_entity
  by_cases h1 : mac ∈ s.added
  · rw [if_pos h1]; exact h
  · rw [if_neg h1]
    by_cases h2 : mac = "ap" ∨ mac ∈ hub.get_blacklisted_tags
    · rw [if_pos h2]; exact h
    · rw [if_neg h2]
      obtain ⟨hnd, hsub⟩ := h
      refine ⟨?_, ?_⟩
      · unfold tagsUnique at hnd ⊢
        simp only [List.map_append, List.map_cons, List.map_nil]
        rw [List.nodup_append]
        refine ⟨hnd, List.nodup_singleton _, ?_⟩
        intro a ha hb
        simp only [mkImageEntity_tag_mac, List.mem_singleton] at hb
        obtain ⟨e, he, rfl⟩ := List.mem_map.mp ha
        exact h1 (hb ▸ hsub e he)
      · intro e he
        rcases List.mem_append.mp he with he | he
        · exact List.mem_append_left _ (hsub e he)
        · simp only [List.mem_singleton] at he
          subst he
          exact List.mem_append_right _ (by simp [mkImageEntity_tag_mac])

lemma foldl_add_invariant (hub : Hub) (l : List String) (s : SetupState)
    (h : SetupInvariant s) :
    SetupInvariant (l.foldl (async_add_image_entity hub) s) := by
  induction l generalizing s with
  | nil => exact h
  | cons x xs ih => exact ih _ (async_add_invariant hub s x h)

lemma setup_entry_invariant (hub : Hub) : SetupInvariant (async_setup_entry hub) :=
  foldl_add_invariant hub hub.tags _ ⟨by simp [tagsUnique], by simp⟩

lemma runEvents_invariant (evs : List (Hub × String)) (s : SetupState)
    (h : SetupInvariant s) : SetupInvariant (runEvents s evs) := by
  unfold runEvents
  induction evs generalizing s with
  | nil => exact h
  | cons ev evs ih => exact ih _ (async_add_invariant ev.1 s ev.2 h)

lemma add_keeps_out (hub : Hub) (s : SetupState) (m mac : String)
    (hb : mac ∈ hub.get_blacklisted_tags) (h : mac ∉ s.added) :
    mac ∉ (async_add_image_entity hub s m).added := by
  unfold async_add_image_entity
  by_cases h1 : m ∈ s.added
  · rw [if_pos h1]; exact h
  · rw [if_neg h1]
    by_cases h2 : m = "ap" ∨ m ∈ hub.get_blacklisted_tags
    · rw [if_pos h2]; exact h
    · rw [if_neg h2]
      intro hmem
      rcases List.mem_append.mp hmem with hmem | hmem
      · exact h hmem
      · simp only [List.mem_singleton] at hmem
        exact h2 (Or.inr (hmem ▸ hb))

lemma foldl_keeps_out (hub : Hub) (mac : String)
    (hb : mac ∈ hub.get_blacklisted_tags) (l : List String) (s : SetupState)
    (h : mac ∉ s.added) :
    mac ∉ (l.foldl (async_add_image_entity hub) s).added := by
  induction l generalizing s with
  | nil => exact h
  | cons x xs ih => exact ih _ (add_keeps_out hub s x mac hb h)

end OpenEPaperLink

namespace OpenEPaperLink

/-- C1: `available` is true exactly when the hub reports connected, the tag
identifier is in the hub's known tag set, and the identifier is not
blacklisted; it is recomputed from the hub's current state on every query and
equals the availability of a freshly constructed entity for the same
identifier, so no boolean cached in the entity enters the result. -/
theorem available_iff_hub_state (hub hub2 : Hub) (e : OpenEPaperLinkImageEntity) :
    (e.available hub = true ↔
      hub.online = true ∧ e.tag_mac ∈ hub.tags ∧
        e.tag_mac ∉ hub.get_blacklisted_tags) ∧
    e.available hub = (mkImageEntity hub2 e.tag_mac).available hub := by
  refine ⟨?_, rfl⟩
  unfold OpenEPaperLinkImageEntity.available
  simp [and_assoc]

/-- C2: when the resolved image path names an existing file and the read
succeeds, `async_image` returns exactly the file's contents. -/
theorem async_image_returns_file_bytes (env : Env) (e : OpenEPaperLinkImageEntity)
    (bs : List Nat) (h1 : env.fs (resolvedImagePath e) = some bs)
    (h2 : env.readFails (resolvedImagePath e) = false) :
    (async_image env e).image = some bs := by
  simp [async_image, h1, h2]

theorem async_image_returns_file_bytes_witness :
    (Env.mk (fun _ => some [7, 7]) (fun _ => false)).fs
        (resolvedImagePath (OpenEPaperLinkImageEntity.mk "aa" "aa_content"
          (DeviceInfo.mk [] "aa" "m" "hw" ("d", "ap")) (some "p"))) = some [7, 7] ∧
    (Env.mk (fun _ => some [7, 7]) (fun _ => false)).readFails
        (resolvedImagePath (OpenEPaperLinkImageEntity.mk "aa" "aa_content"
          (DeviceInfo.mk [] "aa" "m" "hw" ("d", "ap")) (some "p"))) = false ∧
    (async_image (Env.mk (fun _ => some [7, 7]) (fun _ => false))
        (OpenEPaperLinkImageEntity.mk "aa" "aa_content"
          (DeviceInfo.mk [] "aa" "m" "hw" ("d", "ap")) (some "p"))).image
      = some [7, 7] :=
  ⟨rfl, rfl, async_image_returns_file_bytes _ _ _ rfl rfl⟩

/-- C3: when the resolved image path names an existing file but the read
raises an I/O error, `async_image` logs the failure and returns `none`; the
function is total, so the error never reaches the caller. -/
theorem async_image_oserror_logged (env : Env) (e : OpenEPaperLinkImageEntity)
    (h1 : (env.fs (resolvedImagePath e)).isSome = true)
    (h2 : env.readFails (resolvedImagePath e) = true) :
    (async_image env e).image = none ∧ (async_image env e).log ≠ [] := by
  simp [async_image, h1, h2]

theorem async_image_oserror_logged_witness :
    ((Env.mk (fun _ => some [1]) (fun _ => true)).fs
        (resolvedImagePath (OpenEPaperLinkImageEntity.mk "bb" "bb_content"
          (DeviceInfo.mk [] "bb" "m" "hw" ("d", "ap")) (some "q")))).isSome = true ∧
    (Env.mk (fun _ => some [1]) (fun _ => true)).readFails
        (resolvedImagePath (OpenEPaperLinkImageEntity.mk "bb" "bb_content"
          (DeviceInfo.mk [] "bb" "m" "hw" ("d", "ap")) (some "q"))) = true ∧
    ((async_image (Env.mk (fun _ => some [1]) (fun _ => true))
        (OpenEPaperLinkImageEntity.mk "bb" "bb_content"
          (DeviceInfo.mk [] "bb" "m" "hw" ("d", "ap")) (some "q"))).image = none ∧
      (async_image (Env.mk (fun _ => some [1]) (fun _ => true))
        (OpenEPaperLinkImageEntity.mk "bb" "bb_content"
          (DeviceInfo.mk [] "bb" "m" "hw" ("d", "ap")) (some "q"))).log ≠ []) :=
  ⟨rfl, rfl, async_image_oserror_logged _ _ rfl rfl⟩

/-- C4: when the resolved image path names no existing file, `async_image`
returns `none` with nothing logged and no exception (the function is total). -/
theorem async_image_missing_file (env : Env) (e : OpenEPaperLinkImageEntity)
    (h : env.fs (resolvedImagePath e) = none) :
    (async_image env e).image = none ∧ (async_image env e).log = [] := by
  simp [async_image, h]

theorem async_image_missing_file_witness :
    (Env.mk (fun _ => none) (fun _ => false)).fs
        (resolvedImagePath (OpenEPaperLinkImageEntity.mk "cc" "cc_content"
          (DeviceInfo.mk [] "cc" "m" "hw" ("d", "ap")) (some "r"))) = none ∧
    ((async_image (Env.mk (fun _ => none) (fun _ => false))
        (OpenEPaperLinkImageEntity.mk "cc" "cc_content"
          (DeviceInfo.mk [] "cc" "m" "hw" ("d", "ap")) (some "r"))).image = none ∧
      (async_image (Env.mk (fun _ => none) (fun _ => false))
        (OpenEPaperLinkImageEntity.mk "cc" "cc_content"
          (DeviceInfo.mk [] "cc" "m" "hw" ("d", "ap")) (some "r"))).log = []) :=
  ⟨rfl, async_image_missing_file _ _ rfl⟩

/-- C7: the access-point identifier `"ap"` never yields an entity: the
add-entity path leaves the setup state completely unchanged for it. -/
theorem ap_never_yields_entity (hub : Hub) (s : SetupState) :
    async_add_image_entity hub s "ap" = s := by
  unfold async_add_image_entity
  by_cases h1 : "ap" ∈ s.added
  · rw [if_pos h1]
  · rw [if_neg h1, if_pos (Or.inl rfl)]

/-- C10: construction tolerates missing record fields, each independently of
the other: for any record lacking `hw_type` the hardware type defaults to 0,
so the model is the hardware-string lookup at 0, and for any record lacking
`tag_name` the device name falls back to the raw tag identifier; the two
conditionals are stated over unrelated hub/identifier pairs, so neither
default needs the other field to be missing too. -/
theorem mkImageEntity_defaults (hub1 hub2 : Hub) (mac1 mac2 : String)
    (h1 : (hub1.get_tag_data mac1).hw_type = none)
    (h2 : (hub2.get_tag_data mac2).tag_name = none) :
    (mkImageEntity hub1 mac1).device_info.model = get_hw_string 0 ∧
    (mkImageEntity hub2 mac2).device_info.name = mac2 := by
  constructor
  · simp [mkImageEntity, h1]
  · simp [mkImageEntity, h2]

theorem mkImageEntity_defaults_witness :
    ((Hub.mk true ["dd"] [] (fun _ => TagData.mk none (some "Desk"))).get_tag_data
        "dd").hw_type = none ∧
    ((Hub.mk true ["nn"] [] (fun _ => TagData.mk (some 5) none)).get_tag_data
        "nn").tag_name = none ∧
    ((mkImageEntity (Hub.mk true ["dd"] [] (fun _ => TagData.mk none (some "Desk")))
        "dd").device_info.model = get_hw_string 0 ∧
      (mkImageEntity (Hub.mk true ["nn"] [] (fun _ => TagData.mk (some 5) none))
        "nn").device_info.name = "nn") :=
  ⟨rfl, rfl, mkImageEntity_defaults _ _ _ _ rfl rfl⟩

end OpenEPaperLink

namespace OpenEPaperLink

/-- C9: the image path is derived from the namespaced key
`DOMAIN ++ "." ++ tag_mac` on the first `async_image` call and cached: a call
that already holds a stored path leaves it unchanged, and in either case the
accessor touches no other entity field. -/
theorem async_image_path_resolution (env : Env) (e0 e : OpenEPaperLinkImageEntity)
    (p : String) (h0 : e0.image_path = none) (h : e.image_path = some p) :
    (async_image env e0).entity.image_path
        = some (get_image_path (DOMAIN ++ "." ++ e0.tag_mac)) ∧
    (async_image env e0).entity.tag_mac = e0.tag_mac ∧
    (async_image env e0).entity.unique_id = e0.unique_id ∧
    (async_image env e0).entity.device_info = e0.device_info ∧
    (async_image env e).entity.image_path = some p ∧
    (async_image env e).entity.tag_mac = e.tag_mac ∧
    (async_image env e).entity.unique_id = e.unique_id ∧
    (async_image env e).entity.device_info = e.device_info := by
  simp [async_image_entity_eq, resolvedImagePath, h0, h]

theorem async_image_path_resolution_witness :
    (OpenEPaperLinkImageEntity.mk "ee" "ee_content"
        (DeviceInfo.mk [] "ee" "m" "hw" ("d", "ap")) none).image_path = none ∧
    (OpenEPaperLinkImageEntity.mk "ff" "ff_content"
        (DeviceInfo.mk [] "ff" "m" "hw" ("d", "ap")) (some "pp")).image_path
      = some "pp" ∧
    (async_image (Env.mk (fun _ => none) (fun _ => false))
        (OpenEPaperLinkImageEntity.mk "ee" "ee_content"
          (DeviceInfo.mk [] "ee" "m" "hw" ("d", "ap")) none)).entity.image_path
      = some (get_image_path (DOMAIN ++ "." ++ "ee")) ∧
    (async_image (Env.mk (fun _ => none) (fun _ => false))
        (OpenEPaperLinkImageEntity.mk "ff" "ff_content"
          (DeviceInfo.mk [] "ff" "m" "hw" ("d", "ap"))
          (some "pp"))).entity.image_path = some "pp" :=
  ⟨rfl, rfl,
    (async_image_path_resolution (Env.mk (fun _ => none) (fun _ => false))
      (OpenEPaperLinkImageEntity.mk "ee" "ee_content"
        (DeviceInfo.mk [] "ee" "m" "hw" ("d", "ap")) none)
      (OpenEPaperLinkImageEntity.mk "ff" "ff_content"
        (DeviceInfo.mk [] "ff" "m" "hw" ("d", "ap")) (some "pp"))
      "pp" rfl rfl).1,
    (async_image_path_resolution (Env.mk (fun _ => none) (fun _ => false))
      (OpenEPaperLinkImageEntity.mk "ee" "ee_content"
        (DeviceInfo.mk [] "ee" "m" "hw" ("d", "ap")) none)
      (OpenEPaperLinkImageEntity.mk "ff" "ff_content"
        (DeviceInfo.mk [] "ff" "m" "hw" ("d", "ap")) (some "pp"))
      "pp" rfl rfl).2.2.2.2.1⟩

/-- C5: invoking the add-entity path for an identifier already in the
tracking set changes nothing — no entity is created or registered and the
tracking set is untouched — and consequently, over any run made of the
startup enumeration followed by arbitrary discovery notifications, no two
registered entities share a tag identifier. -/
theorem async_add_idempotent (hub hub0 : Hub) (s : SetupState) (mac : String)
    (evs : List (Hub × String)) (h : mac ∈ s.added) :
    async_add_image_entity hub s mac = s ∧
    tagsUnique (runEvents (async_setup_entry hub0) evs) := by
  constructor
  · unfold async_add_image_entity
    rw [if_pos h]
  · exact (runEvents_invariant evs _ (setup_entry_invariant hub0)).1

theorem async_add_idempotent_witness :
    "gg" ∈ (SetupState.mk ["gg"] []).added ∧
    (async_add_image_entity (Hub.mk true ["gg"] [] (fun _ => TagData.mk none none))
        (SetupState.mk ["gg"] []) "gg" = SetupState.mk ["gg"] [] ∧
      tagsUnique (runEvents
        (async_setup_entry
          (Hub.mk true ["gg", "hh"] [] (fun _ => TagData.mk none none)))
        [(Hub.mk true ["gg", "hh"] [] (fun _ => TagData.mk none none), "gg")])) :=
  ⟨by decide,
    async_add_idempotent
      (Hub.mk true ["gg"] [] (fun _ => TagData.mk none none))
      (Hub.mk true ["gg", "hh"] [] (fun _ => TagData.mk none none))
      (SetupState.mk ["gg"] []) "gg"
      [(Hub.mk true ["gg", "hh"] [] (fun _ => TagData.mk none none), "gg")]
      (by decide)⟩

/-- C6: an identifier blacklisted at setup time is neither registered nor
tracked by the startup enumeration, and once the blacklist no longer contains
it, a later tag-discovered invocation of the add-entity path creates and
registers exactly one entity for it. -/
theorem blacklisted_then_discovered (hub hub2 : Hub) (mac : String)
    (hb : mac ∈ hub.get_blacklisted_tags)
    (hb2 : mac ∉ hub2.get_blacklisted_tags)
    (hap : mac ≠ "ap") :
    mac ∉ (async_setup_entry hub).added ∧
    (∀ e ∈ (async_setup_entry hub).entities, e.tag_mac ≠ mac) ∧
    (async_add_image_entity hub2 (async_setup_entry hub) mac).added
        = (async_setup_entry hub).added ++ [mac] ∧
    (async_add_image_entity hub2 (async_setup_entry hub) mac).entities
        = (async_setup_entry hub).entities ++ [mkImageEntity hub2 mac] := by
  have hout : mac ∉ (async_setup_entry hub).added := by
    unfold async_setup_entry
    exact foldl_keeps_out hub mac hb hub.tags _ (by simp)
  have hinv := setup_entry_invariant hub
  refine ⟨hout, ?_, ?_, ?_⟩
  · intro e he heq
    exact hout (heq ▸ hinv.2 e he)
  · unfold async_add_image_entity
    rw [if_neg hout, if_neg (not_or.mpr ⟨hap, hb2⟩)]
  · unfold async_add_image_entity
    rw [if_neg hout, if_neg (not_or.mpr ⟨hap, hb2⟩)]

theorem blacklisted_then_discovered_witness :
    "kk" ∈ (Hub.mk true ["kk"] ["kk"]
        (fun _ => TagData.mk none none)).get_blacklisted_tags ∧
    "kk" ∉ (Hub.mk true ["kk"] []
        (fun _ => TagData.mk none none)).get_blacklisted_tags ∧
    "kk" ≠ "ap" ∧
    ("kk" ∉ (async_setup_entry (Hub.mk true ["kk"] ["kk"]
        (fun _ => TagData.mk none none))).added ∧
      (async_add_image_entity (Hub.mk true ["kk"] [] (fun _ => TagData.mk none none))
          (async_setup_entry (Hub.mk true ["kk"] ["kk"]
            (fun _ => TagData.mk none none))) "kk").entities
        = (async_setup_entry (Hub.mk true ["kk"] ["kk"]
            (fun _ => TagData.mk none none))).entities
          ++ [mkImageEntity (Hub.mk true ["kk"] []
                (fun _ => TagData.mk none none)) "kk"]) :=
  ⟨by decide, by decide, by decide,
    (blacklisted_then_discovered
      (Hub.mk true ["kk"] ["kk"] (fun _ => TagData.mk none none))
      (Hub.mk true ["kk"] [] (fun _ => TagData.mk none none))
      "kk" (by decide) (by decide) (by decide)).1,
    (blacklisted_then_discovered
      (Hub.mk true ["kk"] ["kk"] (fun _ => TagData.mk none none))
      (Hub.mk true ["kk"] [] (fun _ => TagData.mk none none))
      "kk" (by decide) (by decide) (by decide)).2.2.2⟩

end OpenEPaperLink

namespace OpenEPaperLink

lemma attach_shape (mac : String) (d : Dispatcher) :
    async_added_to_hass mac d =
      ([d.nextId, d.nextId + 1, d.nextId + 2],
       Dispatcher.mk
         (((d.conns
             ++ [Connection.mk d.nextId (SIGNAL_TAG_IMAGE_UPDATE ++ "_" ++ mac)
                  .write_ha_state])
             ++ [Connection.mk (d.nextId + 1) (DOMAIN ++ "_connection_status")
                  .write_ha_state])
             ++ [Connection.mk (d.nextId + 2) (DOMAIN ++ "_blacklist_update")
                  .handle_blacklist_update])
         (d.nextId + 3)) := rfl

lemma detach_restores (mac : String) (d : Dispatcher) (hwf : DispatcherWF d) :
    (detach (async_added_to_hass mac d).1 (async_added_to_hass mac d).2).conns
      = d.conns := by
  have hk : ∀ i, d.nextId ≤ i →
      List.filter (fun c => c.id ≠ i) d.conns = d.conns := by
    intro i hi
    apply List.filter_eq_self.mpr
    intro c hc
    simpa using Nat.ne_of_lt (Nat.lt_of_lt_of_le (hwf c hc) hi)
  rw [attach_shape]
  simp only [detach, List.foldl_cons, List.foldl_nil, dispatcher_disconnect,
    List.filter_append]
  rw [hk _ (Nat.le_refl _), hk _ (Nat.le_add_right _ 1), hk _ (Nat.le_add_right _ 2)]
  simp

/-- C8: attaching subscribes to exactly the three topics (per-tag image
update, global connection status, global blacklist update); detaching through
the stored handles removes exactly those subscriptions, and afterwards a
notification on any of the three topics causes the same number of state
writes as before the entity ever attached — the detached entity contributes
none. -/
theorem subscribe_detach_clean (mac : String) (d : Dispatcher)
    (hwf : DispatcherWF d) :
    ((async_added_to_hass mac d).2.conns.map Connection.topic
        = d.conns.map Connection.topic ++ subscribedTopics mac) ∧
    (detach (async_added_to_hass mac d).1 (async_added_to_hass mac d).2).conns
        = d.conns ∧
    (∀ t ∈ subscribedTopics mac,
      dispatcher_send (detach (async_added_to_hass mac d).1
          (async_added_to_hass mac d).2) t = dispatcher_send d t) := by
  have hc := detach_restores mac d hwf
  refine ⟨?_, hc, ?_⟩
  · rw [attach_shape]
    simp [subscribedTopics]
  · intro t _
    unfold dispatcher_send
    rw [hc]

theorem subscribe_detach_clean_witness :
    DispatcherWF (Dispatcher.mk [] 0) ∧
    (((async_added_to_hass "mm" (Dispatcher.mk [] 0)).2.conns.map Connection.topic
        = (Dispatcher.mk [] 0).conns.map Connection.topic ++ subscribedTopics "mm") ∧
      (detach (async_added_to_hass "mm" (Dispatcher.mk [] 0)).1
          (async_added_to_hass "mm" (Dispatcher.mk [] 0)).2).conns
        = (Dispatcher.mk [] 0).conns ∧
      (∀ t ∈ subscribedTopics "mm",
        dispatcher_send (detach (async_added_to_hass "mm" (Dispatcher.mk [] 0)).1
            (async_added_to_hass "mm" (Dispatcher.mk [] 0)).2) t
          = dispatcher_send (Dispatcher.mk [] 0) t)) :=
  ⟨by decide, subscribe_detach_clean "mm" (Dispatcher.mk [] 0) (by decide)⟩

end OpenEPaperLink
